import Mathlib

/-!
Verification development for the `DAGO` dashboard script (`gd.py`), a Streamlit
application that loads World Bank ESG CSV files, merges them, filters them by
sidebar selections, and renders data-governance metrics.

Shallow embedding conventions:
* a pandas `DataFrame` is a `Table`: an explicit column list plus rows, where a
  row is an association list from column name to scalar value;
* scalar cell values are `Val` (string, integer, boolean, or null standing for
  `NaN`); numerals are modelled as integers, which covers every value the
  claims under study exercise;
* the filesystem is a function from path to optional CSV content;
* the Python functions that mutate their argument (`calculate_data_quality_metrics`
  adds a helper column to `df`) return the post-call state of the table
  explicitly;
* exceptions that propagate out of a function are an `Except` error result.
-/

namespace DAGO

/-- A scalar cell value of a table. `null` models pandas `NaN`/`None`. -/
inductive Val where
  | str : String → Val
  | num : Int → Val
  | bool : Bool → Val
  | null : Val
deriving DecidableEq, Repr

/-- A row: an association list from column name to value.  Lookup takes the
first entry with the given key, matching a dataframe with unique column
labels. -/
def Row : Type := List (String × Val)

instance : DecidableEq Row := by
  unfold Row
  infer_instance

instance : Append Row := ⟨fun a b => List.append a b⟩

/-- Value of column `c` in row `r`; a missing column reads as `null`. -/
def rget : List (String × Val) → String → Val
  | [], _ => Val.null
  | p :: r, c => if p.1 = c then p.2 else rget r c

/-- Set column `c` of row `r` to `v` (replacing the first entry with that key,
or appending the column if absent) — the row-level effect of `df[c] = ...`. -/
def rset : List (String × Val) → String → Val → List (String × Val)
  | [], c, v => [(c, v)]
  | p :: r, c, v => if p.1 = c then (c, v) :: r else p :: rset r c v

/-- An in-memory table (the shallow model of a pandas `DataFrame`). -/
structure Table where
  cols : List String
  rows : List (List (String × Val))
deriving DecidableEq, Repr

/-- `c in df.columns`. -/
def Table.hasCol (t : Table) (c : String) : Bool :=
  decide (c ∈ t.cols)

/-- `df.empty` (pandas: true iff the frame has zero rows). -/
def Table.isEmptyTable (t : Table) : Bool :=
  t.rows.isEmpty

/-- `df[c] = <rowwise expression of the old frame>`: sets every row's value of
column `c`, adding the column at the end when it is new. -/
def Table.setCol (t : Table) (c : String) (f : List (String × Val) → Val) : Table :=
  { cols := if c ∈ t.cols then t.cols else t.cols ++ [c],
    rows := t.rows.map fun r => rset r c (f r) }

/-- `df.drop(columns=[c])`. -/
def Table.dropCol (t : Table) (c : String) : Table :=
  { cols := t.cols.filter fun c2 => !decide (c2 = c),
    rows := t.rows.map fun r => r.filter fun p => !decide (p.1 = c) }

/-- `df[[c1, ..., cn]]`: restrict to the listed columns.  (pandas raises on a
missing column; the call sites embedded below only select columns that the
claims' inputs provide, and a missing column here reads as `null`.) -/
def selectCols (t : Table) (cs : List String) : Table :=
  { cols := cs, rows := t.rows.map fun r => cs.map fun c => (c, rget r c) }

/-- The empty `pd.DataFrame()` returned by `load_data` on a missing file. -/
def emptyTable : Table := { cols := [], rows := [] }

/-- Strict numeric view: `Val.num` only.  Used for dtype-level comparisons such
as `df['Value'] >= 0`, which do not parse strings. -/
def valNum? : Val → Option Int
  | .num n => some n
  | _ => none

/-- `pd.to_numeric(v, errors='coerce')`: numbers pass through, numeric strings
are parsed, everything else becomes `NaN` (`none`). -/
def coerceNum? : Val → Option Int
  | .num n => some n
  | .str s => s.toInt?
  | _ => none

-- ### Data loading (`load_data`, gd.py lines 7-18)

/-- Content of one CSV file: either a file with no content at all (on which
`pd.read_csv` raises `EmptyDataError`), or a header line plus zero or more
data rows. -/
inductive CsvSource where
  | blank : CsvSource
  | table : List String → List (List (String × Val)) → CsvSource

/-- The pandas exceptions that can escape `pd.read_csv` in this model. -/
inductive PdError where
  | fileNotFound : String → PdError
  | emptyDataError : PdError
deriving DecidableEq, Repr

/-- A filesystem: maps a path to the file's content when the file exists. -/
def FileSystem : Type := String → Option CsvSource

/-- `pd.read_csv(path)`: raises `FileNotFoundError` on a missing file,
`EmptyDataError` on a contentless file, and otherwise yields the dataframe. -/
def read_csv (fs : FileSystem) (path : String) : Except PdError Table :=
  match fs path with
  | none => .error (.fileNotFound path)
  | some .blank => .error .emptyDataError
  | some (.table header rows) => .ok { cols := header, rows := rows }

/-- `load_data` (gd.py lines 7-18).  It catches only `FileNotFoundError`, in
which case it displays an error message (returned as the `Option String`
component) and returns an empty dataframe; every other exception propagates.
The result pair is `(table, displayed error message)`. -/
def load_data (fs : FileSystem) (path : String) : Except PdError (Table × Option String) :=
  match read_csv fs path with
  | .ok t => .ok (t, none)
  | .error (.fileNotFound p) =>
      .ok (emptyTable,
        some ("Error: Data file not found: " ++ p
          ++ ". Please ensure your CSVs are in the data directory."))
  | .error e => .error e

/-- The module-level core-data check (gd.py line 267): the app proceeds past
`st.stop()` iff none of the three core tables is empty. -/
def coreCheck (esg_data esg_country esg_series : Table) : Bool :=
  !(esg_data.isEmptyTable || esg_country.isEmptyTable || esg_series.isEmptyTable)

-- ### Metric calculation functions (gd.py lines 21-164)

/-- The result dictionary of `calculate_data_quality_metrics`. -/
structure QualityMetrics where
  dataAccuracyRate : ℚ
  dataCompletenessRate : ℚ
  dataConsistencyRate : ℚ
deriving DecidableEq, Repr

/-- `critical_columns` (gd.py line 54). -/
def criticalColumns : List String := ["Country Code", "Series Code", "Time", "Value"]

/-- `calculate_data_quality_metrics` (gd.py lines 21-97).  The Python function
mutates its argument when a `Time` column is present, by adding a boolean
helper column `Time_is_int`; the second component of the result is the state
of `df` after the call. -/
def calculate_data_quality_metrics (df : Table) : QualityMetrics × Table :=
  if df.isEmptyTable then
    ({ dataAccuracyRate := 0, dataCompletenessRate := 0, dataConsistencyRate := 0 }, df)
  else
    let total : ℚ := df.rows.length
    let accurate : ℚ :=
      if df.hasCol "Value" then
        ((df.rows.filter fun r =>
          match valNum? (rget r "Value") with
          | some n => decide (0 ≤ n)
          | none => false).length : ℚ)
      else total
    let dataAccuracyRate := accurate / total
    let existingCritical := criticalColumns.filter df.hasCol
    let dataCompletenessRate : ℚ :=
      if existingCritical.isEmpty then 1
      else
        ((df.rows.filter fun r =>
          existingCritical.all fun c => !decide (rget r c = Val.null)).length : ℚ) / total
    let step :=
      if df.hasCol "Time" then
        let d2 := df.setCol "Time_is_int" fun r => Val.bool (coerceNum? (rget r "Time")).isSome
        (d2, (d2.rows.filter fun r => decide (rget r "Time_is_int" = Val.bool true)).length)
      else (df, df.rows.length)
    let d2 := step.1
    let consistent :=
      if d2.hasCol "Value" then
        min step.2 (d2.rows.filterMap fun r => coerceNum? (rget r "Value")).length
      else step.2
    ({ dataAccuracyRate := dataAccuracyRate,
       dataCompletenessRate := dataCompletenessRate,
       dataConsistencyRate := (consistent : ℚ) / total }, d2)

/-- The result dictionary of `calculate_data_access_metrics`. -/
structure AccessMetrics where
  numDataAccessRequests : Int
  numApprovedRequests : Int
  avgTimeToApproveDays : ℚ
deriving DecidableEq, Repr

/-- `calculate_data_access_metrics` (gd.py lines 100-116): simulated
placeholder values, independent of `df`. -/
def calculate_data_access_metrics (df : Table) : AccessMetrics :=
  { numDataAccessRequests := 125,
    numApprovedRequests := 110,
    avgTimeToApproveDays := 28 / 10 }

/-- `calculate_data_privacy_metrics` (gd.py lines 118-133): a simulated
compliance rate, independent of `df`. -/
def calculate_data_privacy_metrics (df : Table) : ℚ := 95 / 100

/-- `calculate_data_security_metrics` (gd.py lines 135-149): a simulated count
of unauthorized attempts, independent of `df`. -/
def calculate_data_security_metrics (df : Table) : Int := 7

-- ### Preprocessing: merges and Time coercion (gd.py lines 279-319)

/-- The `suffixes=('', '_y')` policy of `pd.merge`: a non-key column coming
from the right table keeps its name unless the left table already has it, in
which case it is suffixed with `_y`. -/
def mergeRename (leftCols : List String) (c : String) : String :=
  if c ∈ leftCols then c ++ "_y" else c

/-- `pd.merge(left, right, on=key, how='left', suffixes=('', '_y'))`: every
left row is kept, paired with each matching right row (equal `key` value); a
left row with no match is padded with `null` for the right table's non-key
columns. -/
def mergeLeft (left right : Table) (key : String) : Table :=
  let rightNonKey := right.cols.filter fun c => !decide (c = key)
  { cols := left.cols ++ rightNonKey.map (mergeRename left.cols),
    rows := left.rows.flatMap fun lr =>
      match right.rows.filter (fun rr => decide (rget rr key = rget lr key)) with
      | [] => [lr ++ rightNonKey.map fun c => (mergeRename left.cols c, Val.null)]
      | m :: ms => (m :: ms).map fun rr =>
          lr ++ rightNonKey.map fun c => (mergeRename left.cols c, rget rr c) }

/-- `v.fillna(w)` at a single cell: keep `v` unless it is null. -/
def fillnaVal (v w : Val) : Val :=
  match v with
  | .null => w
  | v => v

/-- The `Time` coercion (gd.py lines 314-317): `pd.to_numeric(..., errors='coerce')`
followed by `dropna(subset=['Time'])` and `astype(int)` — rows whose `Time`
does not coerce to a number are dropped, the others get the integer value. -/
def coerceTimeColumn (t : Table) : Table :=
  { cols := t.cols,
    rows := (t.rows.filter fun r => (coerceNum? (rget r "Time")).isSome).map fun r =>
      rset r "Time" (Val.num ((coerceNum? (rget r "Time")).getD 0)) }

/-- Placeholder initialization (gd.py lines 282-283): `Country Name` and
`Indicator Name` are set to fixed strings so the columns always exist. -/
def initPlaceholders (t : Table) : Table :=
  (t.setCol "Country Name" fun _ => Val.str "Unknown Country").setCol
    "Indicator Name" fun _ => Val.str "Unknown Indicator"

/-- The `Country Code` merge (gd.py lines 287-296): guarded by an exact
membership test of `'Country Code'` in both tables; on the else branch only a
warning is shown and the table is returned unchanged. -/
def countryMergeStage (d esg_country : Table) : Table :=
  if d.hasCol "Country Code" && esg_country.hasCol "Country Code" then
    let m := mergeLeft d (selectCols esg_country ["Country Code", "Table Name"]) "Country Code"
    let m := m.setCol "Country Name" fun r =>
      fillnaVal (rget r "Table Name") (rget r "Country Name")
    if m.hasCol "Table Name" then m.dropCol "Table Name" else m
  else d

/-- The `Series Code` merge (gd.py lines 301-310): guarded by an exact
membership test of `'Series Code'` in both tables; on the else branch only a
warning is shown and the table is returned unchanged. -/
def seriesMergeStage (d esg_series : Table) : Table :=
  if d.hasCol "Series Code" && esg_series.hasCol "Series Code" then
    let m := mergeLeft d (selectCols esg_series ["Series Code", "Indicator Name"]) "Series Code"
    let m := m.setCol "Indicator Name" fun r =>
      fillnaVal (rget r "Indicator Name_y") (rget r "Indicator Name")
    if m.hasCol "Indicator Name_y" then m.dropCol "Indicator Name_y" else m
  else d

/-- The `Time` coercion stage (gd.py lines 314-319): applied only when a
`Time` column exists. -/
def timeStage (d : Table) : Table :=
  if d.hasCol "Time" then coerceTimeColumn d else d

/-- The module-level preprocessing of `esg_data` (gd.py lines 279-319):
placeholder columns, the two guarded left merges, then the `Time` coercion. -/
def preprocess (esg_data esg_country esg_series : Table) : Table :=
  timeStage (seriesMergeStage (countryMergeStage (initPlaceholders esg_data) esg_country)
    esg_series)

-- ### Sidebar filters (gd.py lines 322-347)

/-- The integer behind a `Time` cell after preprocessing (gd.py line 317 casts
the column to int), `none` for a null. -/
def timeVal? (v : Val) : Option Int := valNum? v

/-- The Year selectbox option list (gd.py lines 336-338):
`sorted(esg_data['Time'].dropna().unique().tolist())`.  It is computed from
the unfiltered `esg_data`; the country selection made just above it in the
source is not consulted, which is why the `selectedCountry` argument is
unused. -/
def yearOptionsOffered (esg_data : Table) (selectedCountry : Option String) : List Int :=
  ((esg_data.rows.filterMap fun r => timeVal? (rget r "Time")).dedup).insertionSort
    fun a b => a ≤ b

/-- Narrowing by the country selectbox (gd.py lines 344-345); `none` is the
`"All"` sentinel. -/
def filterCountry (t : Table) (sel : Option String) : Table :=
  match sel with
  | none => t
  | some c => { t with rows := t.rows.filter fun r => decide (rget r "Country Name" = Val.str c) }

/-- Narrowing by the year selectbox (gd.py lines 346-347); `none` is the
`"All"` sentinel. -/
def filterYear (t : Table) (sel : Option Int) : Table :=
  match sel with
  | none => t
  | some y => { t with rows := t.rows.filter fun r => decide (rget r "Time" = Val.num y) }

/-- `filtered_data` (gd.py lines 343-347): the copy of `esg_data` narrowed by
the country selection and then by the year selection. -/
def applyFilters (t : Table) (selCountry : Option String) (selYear : Option Int) : Table :=
  filterYear (filterCountry t selCountry) selYear

/-- The option list described by the specification for the Year dimension: the
distinct non-null `Time` values of the table restricted to the selected
country.  This definition follows the spec's words, for comparison with
`yearOptionsOffered` above. -/
def yearOptionsSpecified (esg_data : Table) (selectedCountry : Option String) : List Int :=
  (((filterCountry esg_data selectedCountry).rows.filterMap fun r =>
    timeVal? (rget r "Time")).dedup).insertionSort fun a b => a ≤ b

-- ### Sample inputs used by concrete witnesses and counterexamples

/-- A main table whose series-key column is named `"series code"` (a
normalized-equivalent of the required `"Series Code"`, but not an exact
match). -/
def esgDataLowercase : Table :=
  { cols := ["Country Code", "series code", "Time", "Value"],
    rows := [[("Country Code", Val.str "USA"), ("series code", Val.str "EN.ATM"),
              ("Time", Val.num 2020), ("Value", Val.num 5)]] }

/-- A country-metadata table with the shape of `ESGCountry.csv`. -/
def esgCountrySample : Table :=
  { cols := ["Country Code", "Table Name"],
    rows := [[("Country Code", Val.str "USA"), ("Table Name", Val.str "United States")]] }

/-- A series-metadata table with the shape of `ESGSeries.csv`. -/
def esgSeriesSample : Table :=
  { cols := ["Series Code", "Indicator Name"],
    rows := [[("Series Code", Val.str "EN.ATM"), ("Indicator Name", Val.str "CO2 emissions")]] }

/-- A table with two countries whose observations fall in different years. -/
def twoCountryTable : Table :=
  { cols := ["Country Name", "Time"],
    rows := [[("Country Name", Val.str "Albania"), ("Time", Val.num 2010)],
             [("Country Name", Val.str "Brazil"), ("Time", Val.num 2020)]] }

/-- A one-row table with only a `Time` column. -/
def timeOnlyTable : Table :=
  { cols := ["Time"], rows := [[("Time", Val.num 2020)]] }

/-- A filesystem on which every path is absent. -/
def missingFileSystem : FileSystem := fun _ => none

/-- A filesystem whose only file has a header line but zero data rows. -/
def headerOnlyFileSystem : FileSystem := fun p =>
  if p = "data/ESGData.csv" then
    some (.table ["Country Code", "Series Code", "Time", "Value"] [])
  else none

/-- A primary table for exercising the left merge: two rows, one with a key
that the secondary table does not carry. -/
def joinPrimarySample : Table :=
  { cols := ["Country Code", "Value"],
    rows := [[("Country Code", Val.str "USA"), ("Value", Val.num 1)],
             [("Country Code", Val.str "ZZZ"), ("Value", Val.num 2)]] }

/-- A secondary table with exactly one row, matching one key of
`joinPrimarySample`. -/
def joinSecondarySample : Table :=
  { cols := ["Country Code", "Table Name"],
    rows := [[("Country Code", Val.str "USA"), ("Table Name", Val.str "United States")]] }

-- ### Helper lemmas on rows

theorem rget_rset_self (r : List (String × Val)) (c : String) (v : Val) :
    rget (rset r c v) c = v := by
  induction r with
  | nil => simp [rset, rget]
  | cons p r ih =>
    by_cases hp : p.1 = c
    · simp [rset, hp, rget]
    · simp [rset, hp, rget, ih]

theorem rget_rset_ne (r : List (String × Val)) {c c' : String} (v : Val) (h : c' ≠ c) :
    rget (rset r c v) c' = rget r c' := by
  induction r with
  | nil => simp [rset, rget, Ne.symm h]
  | cons p r ih =>
    by_cases hp : p.1 = c
    · simp [rset, hp, rget, Ne.symm h]
    · simp [rset, hp, rget, ih]

theorem rget_append_left {r : List (String × Val)} (r2 : List (String × Val)) {c : String}
    (h : rget r c ≠ Val.null) : rget (r ++ r2) c = rget r c := by
  induction r with
  | nil => simp [rget] at h
  | cons p r ih =>
    by_cases hp : p.1 = c
    · simp [rget, hp]
    · have h' : rget r c ≠ Val.null := by simpa [rget, hp] using h
      have e1 : rget ((p :: r) ++ r2) c = rget (r ++ r2) c := by simp [rget, hp]
      have e2 : rget (p :: r) c = rget r c := by simp [rget, hp]
      rw [e1, e2]
      exact ih h'

theorem rget_filter_ne (r : List (String × Val)) {c c' : String} (h : c ≠ c') :
    rget (r.filter fun p => !decide (p.1 = c')) c = rget r c := by
  induction r with
  | nil => rfl
  | cons p r ih =>
    by_cases hp : p.1 = c'
    · have hpc : p.1 ≠ c := by rw [hp]; exact Ne.symm h
      simp [List.filter_cons, hp, rget, hpc, ih, Ne.symm h]
    · by_cases hc : p.1 = c
      · simp [List.filter_cons, hp, rget, hc, h]
      · simp [List.filter_cons, hp, rget, hc, ih, h]

-- ### Helper lemmas on table columns

theorem hasCol_true_iff {t : Table} {c : String} : t.hasCol c = true ↔ c ∈ t.cols := by
  simp [Table.hasCol]

theorem hasCol_false_iff {t : Table} {c : String} : t.hasCol c = false ↔ c ∉ t.cols := by
  simp [Table.hasCol]

theorem mem_cols_setCol {t : Table} {c c' : String} {f : List (String × Val) → Val} :
    c ∈ (t.setCol c' f).cols ↔ c ∈ t.cols ∨ c = c' := by
  by_cases h : c' ∈ t.cols
  · simp only [Table.setCol, h, if_true]
    constructor
    · exact Or.inl
    · rintro (hc | rfl)
      · exact hc
      · exact h
  · simp [Table.setCol, h]

theorem mergeLeft_cols (left right : Table) (key : String) :
    (mergeLeft left right key).cols =
      left.cols ++ (right.cols.filter fun c => !decide (c = key)).map (mergeRename left.cols) :=
  rfl

theorem selectCols_cols (t : Table) (cs : List String) : (selectCols t cs).cols = cs := rfl

theorem dropCol_cols (t : Table) (c : String) :
    (t.dropCol c).cols = t.cols.filter fun c2 => !decide (c2 = c) := rfl

theorem coerceTimeColumn_cols (t : Table) : (coerceTimeColumn t).cols = t.cols := rfl

theorem timeStage_cols (t : Table) : (timeStage t).cols = t.cols := by
  unfold timeStage
  split
  · exact coerceTimeColumn_cols t
  · rfl

theorem mem_cols_countryMergeStage {d ec : Table} {c : String} (hc : c ∈ d.cols)
    (hne : c ≠ "Table Name") : c ∈ (countryMergeStage d ec).cols := by
  simp only [countryMergeStage]
  split
  · have h1 : c ∈ (mergeLeft d (selectCols ec ["Country Code", "Table Name"])
        "Country Code").cols := by
      rw [mergeLeft_cols]
      exact List.mem_append_left _ hc
    have h2 : c ∈ ((mergeLeft d (selectCols ec ["Country Code", "Table Name"])
        "Country Code").setCol "Country Name" fun r =>
          fillnaVal (rget r "Table Name") (rget r "Country Name")).cols :=
      mem_cols_setCol.mpr (Or.inl h1)
    split
    · rw [dropCol_cols]
      exact List.mem_filter.mpr ⟨h2, by simp [hne]⟩
    · exact h2
  · exact hc

theorem mem_cols_seriesMergeStage {d es : Table} {c : String} (hc : c ∈ d.cols)
    (hne : c ≠ "Indicator Name_y") : c ∈ (seriesMergeStage d es).cols := by
  simp only [seriesMergeStage]
  split
  · have h1 : c ∈ (mergeLeft d (selectCols es ["Series Code", "Indicator Name"])
        "Series Code").cols := by
      rw [mergeLeft_cols]
      exact List.mem_append_left _ hc
    have h2 : c ∈ ((mergeLeft d (selectCols es ["Series Code", "Indicator Name"])
        "Series Code").setCol "Indicator Name" fun r =>
          fillnaVal (rget r "Indicator Name_y") (rget r "Indicator Name")).cols :=
      mem_cols_setCol.mpr (Or.inl h1)
    split
    · rw [dropCol_cols]
      exact List.mem_filter.mpr ⟨h2, by simp [hne]⟩
    · exact h2
  · exact hc

theorem mergeRename_ne {L : List String} {c c2 : String} (h1 : c ≠ c2) (h2 : c ≠ c2 ++ "_y") :
    mergeRename L c2 ≠ c := by
  unfold mergeRename
  split
  · exact fun he => h2 he.symm
  · exact fun he => h1 he.symm

theorem not_mem_cols_countryMergeStage {d ec : Table} {c : String} (hc : c ∉ d.cols)
    (h1 : c ≠ "Country Name") (h2 : c ≠ "Table Name") (h3 : c ≠ "Table Name_y") :
    c ∉ (countryMergeStage d ec).cols := by
  simp only [countryMergeStage]
  split
  · have hm : c ∉ (mergeLeft d (selectCols ec ["Country Code", "Table Name"])
        "Country Code").cols := by
      rw [mergeLeft_cols, selectCols_cols]
      intro hmem
      rcases List.mem_append.mp hmem with hl | hr
      · exact hc hl
      · simp only [List.mem_map, List.mem_filter, List.mem_cons,
          List.not_mem_nil, or_false] at hr
        obtain ⟨c2, ⟨hc2, hkeep⟩, heq⟩ := hr
        rcases hc2 with rfl | rfl
        · simp at hkeep
        · exact mergeRename_ne h2 h3 heq
    have hs : c ∉ ((mergeLeft d (selectCols ec ["Country Code", "Table Name"])
        "Country Code").setCol "Country Name" fun r =>
          fillnaVal (rget r "Table Name") (rget r "Country Name")).cols := by
      intro hmem
      rcases mem_cols_setCol.mp hmem with h | h
      · exact hm h
      · exact h1 h
    split
    · rw [dropCol_cols]
      intro hmem
      exact hs (List.mem_filter.mp hmem).1
    · exact hs
  · exact hc

theorem seriesMergeStage_skip {d s : Table} (h : d.hasCol "Series Code" = false) :
    seriesMergeStage d s = d := by
  simp [seriesMergeStage, h]

-- ### Helper lemmas on table rows surviving the stages

theorem setCol_preserves {t : Table} {c c' : String} {v : Val}
    {f : List (String × Val) → Val} (hne : c ≠ c')
    (hall : ∀ r ∈ t.rows, rget r c = v) :
    ∀ r ∈ (t.setCol c' f).rows, rget r c = v := by
  intro r hr
  simp only [Table.setCol, List.mem_map] at hr
  obtain ⟨r0, hr0, rfl⟩ := hr
  rw [rget_rset_ne _ _ hne]
  exact hall r0 hr0

theorem mergeLeft_preserves {left right : Table} {key c : String} {v : Val}
    (hv : v ≠ Val.null) (hall : ∀ r ∈ left.rows, rget r c = v) :
    ∀ r ∈ (mergeLeft left right key).rows, rget r c = v := by
  intro r hr
  simp only [mergeLeft, List.mem_flatMap] at hr
  obtain ⟨lr, hlr, hmem⟩ := hr
  have hlv : rget lr c = v := hall lr hlr
  have hnn : rget lr c ≠ Val.null := by rw [hlv]; exact hv
  rcases hfilter : right.rows.filter fun rr => decide (rget rr key = rget lr key) with _ | ⟨m, ms⟩
  · rw [hfilter] at hmem
    simp only [List.mem_singleton] at hmem
    subst hmem
    rw [rget_append_left _ hnn]
    exact hlv
  · rw [hfilter] at hmem
    simp only [List.mem_map] at hmem
    obtain ⟨rr, _, rfl⟩ := hmem
    rw [rget_append_left _ hnn]
    exact hlv

theorem dropCol_preserves {t : Table} {c c' : String} {v : Val} (hne : c ≠ c')
    (hall : ∀ r ∈ t.rows, rget r c = v) :
    ∀ r ∈ (t.dropCol c').rows, rget r c = v := by
  intro r hr
  simp only [Table.dropCol, List.mem_map] at hr
  obtain ⟨r0, hr0, rfl⟩ := hr
  rw [rget_filter_ne _ hne]
  exact hall r0 hr0

theorem coerceTimeColumn_preserves {t : Table} {c : String} {v : Val} (hne : c ≠ "Time")
    (hall : ∀ r ∈ t.rows, rget r c = v) :
    ∀ r ∈ (coerceTimeColumn t).rows, rget r c = v := by
  intro r hr
  simp only [coerceTimeColumn, List.mem_map] at hr
  obtain ⟨r0, hr0, rfl⟩ := hr
  rw [rget_rset_ne _ _ hne]
  exact hall r0 (List.mem_of_mem_filter hr0)

theorem timeStage_preserves {t : Table} {c : String} {v : Val} (hne : c ≠ "Time")
    (hall : ∀ r ∈ t.rows, rget r c = v) :
    ∀ r ∈ (timeStage t).rows, rget r c = v := by
  unfold timeStage
  split
  · exact coerceTimeColumn_preserves hne hall
  · exact hall

theorem initPlaceholders_indicator (t : Table) :
    ∀ r ∈ (initPlaceholders t).rows, rget r "Indicator Name" = Val.str "Unknown Indicator" := by
  intro r hr
  simp only [initPlaceholders, Table.setCol, List.mem_map] at hr
  obtain ⟨r0, _, rfl⟩ := hr
  exact rget_rset_self _ _ _

theorem countryMergeStage_preserves {d ec : Table} {c : String} {v : Val}
    (hv : v ≠ Val.null) (hne1 : c ≠ "Country Name") (hne2 : c ≠ "Table Name")
    (hall : ∀ r ∈ d.rows, rget r c = v) :
    ∀ r ∈ (countryMergeStage d ec).rows, rget r c = v := by
  simp only [countryMergeStage]
  split
  · split
    · exact dropCol_preserves hne2 (setCol_preserves hne1 (mergeLeft_preserves hv hall))
    · exact setCol_preserves hne1 (mergeLeft_preserves hv hall)
  · exact hall

/-- The post-call state of `df` after `calculate_data_quality_metrics`: the
helper column `Time_is_int` is added exactly when the table is nonempty and
has a `Time` column. -/
theorem quality_metrics_snd (df : Table) :
    (calculate_data_quality_metrics df).2 =
      if !df.isEmptyTable && df.hasCol "Time" then
        df.setCol "Time_is_int" fun r => Val.bool (coerceNum? (rget r "Time")).isSome
      else df := by
  by_cases h1 : df.isEmptyTable <;> by_cases h2 : df.hasCol "Time" <;>
    simp [calculate_data_quality_metrics, h1, h2]

theorem filterCountry_rows_sublist (t : Table) (c : Option String) :
    (filterCountry t c).rows.Sublist t.rows := by
  cases c with
  | none => exact List.Sublist.refl _
  | some c => exact List.filter_sublist _

theorem filterYear_rows_sublist (t : Table) (y : Option Int) :
    (filterYear t y).rows.Sublist t.rows := by
  cases y with
  | none => exact List.Sublist.refl _
  | some y => exact List.filter_sublist _

-- ### Claim theorems

/-- C9: the access, privacy and security metric functions are constants with
respect to their input table — for any two tables (the empty table included)
they return identical results, so the outputs carry no information about the
data. -/
theorem C9_placeholder_metrics_constant :
    ∀ df1 df2 : Table,
      calculate_data_access_metrics df1 = calculate_data_access_metrics df2 ∧
      calculate_data_privacy_metrics df1 = calculate_data_privacy_metrics df2 ∧
      calculate_data_security_metrics df1 = calculate_data_security_metrics df2 := by
  intro df1 df2
  exact ⟨rfl, rfl, rfl⟩

/-- C8: on an empty table, `calculate_data_quality_metrics` returns the zero
sentinel for all three data-quality rates instead of dividing by the record
count. -/
theorem C8_empty_table_zero_rates (df : Table) (h : df.isEmptyTable = true) :
    (calculate_data_quality_metrics df).1 =
      { dataAccuracyRate := 0, dataCompletenessRate := 0, dataConsistencyRate := 0 } := by
  simp [calculate_data_quality_metrics, h]

/-- Witness for C8 at the concrete empty table. -/
theorem C8_empty_table_zero_rates_witness :
    emptyTable.isEmptyTable = true ∧
      (calculate_data_quality_metrics emptyTable).1 =
        { dataAccuracyRate := 0, dataCompletenessRate := 0, dataConsistencyRate := 0 } :=
  ⟨rfl, C8_empty_table_zero_rates emptyTable rfl⟩

/-- C7: filter narrowing is monotonic and order-preserving — the rows after
the year dimension are a sublist (subset, in the original relative order) of
the rows after the country dimension, which are a sublist of the input rows;
consequently the row counts are non-increasing. -/
theorem C7_filter_narrowing_monotone (t : Table) (c : Option String) (y : Option Int) :
    (applyFilters t c y).rows.Sublist (filterCountry t c).rows ∧
    (filterCountry t c).rows.Sublist t.rows ∧
    (applyFilters t c y).rows.Sublist t.rows ∧
    (applyFilters t c y).rows.length ≤ (filterCountry t c).rows.length ∧
    (filterCountry t c).rows.length ≤ t.rows.length := by
  have h1 : (applyFilters t c y).rows.Sublist (filterCountry t c).rows :=
    filterYear_rows_sublist (filterCountry t c) y
  have h2 : (filterCountry t c).rows.Sublist t.rows := filterCountry_rows_sublist t c
  exact ⟨h1, h2, h1.trans h2, h1.length_le, h2.length_le⟩

/-- C2 counterexample: with two countries observed in different years, the
Year option list the code offers under a selected country is computed from the
unrestricted table and differs from the option list of the country-restricted
table that the claim describes. -/
theorem C2_counterexample :
    yearOptionsOffered twoCountryTable (some "Albania") = [2010, 2020] ∧
    yearOptionsSpecified twoCountryTable (some "Albania") = [2010] ∧
    yearOptionsOffered twoCountryTable (some "Albania") ≠
      yearOptionsSpecified twoCountryTable (some "Albania") := by
  refine ⟨?_, ?_, ?_⟩ <;> decide

/-- C2 amended: the Year selector's option list is computed from the
unrestricted table — it is identical for any two country selections, and its
members are exactly the distinct non-null `Time` values of the full table. -/
theorem C2_year_options_from_unfiltered_table (t : Table) (c1 c2 : Option String) (y : Int) :
    yearOptionsOffered t c1 = yearOptionsOffered t c2 ∧
    (y ∈ yearOptionsOffered t c1 ↔ ∃ r ∈ t.rows, timeVal? (rget r "Time") = some y) := by
  constructor
  · rfl
  · simp [yearOptionsOffered, List.mem_insertionSort, List.mem_dedup, List.mem_filterMap]

/-- C6 counterexample: `calculate_data_quality_metrics` mutates the table
handed to it — on a one-row table with a `Time` column, the call leaves the
table with an extra `Time_is_int` column. -/
theorem C6_counterexample :
    (calculate_data_quality_metrics timeOnlyTable).2.cols = ["Time", "Time_is_int"] ∧
    timeOnlyTable.cols = ["Time"] ∧
    (calculate_data_quality_metrics timeOnlyTable).2 ≠ timeOnlyTable := by
  refine ⟨?_, rfl, ?_⟩ <;> decide

/-- C6 amended: the only mutation a metric function performs on the table
handed to it is that `calculate_data_quality_metrics` adds the helper column
`Time_is_int` (when the table is nonempty and has a `Time` column); the row
count and the values of every other column are left unchanged, and the
access/privacy/security metric functions do not touch the table at all. -/
theorem C6_quality_metrics_mutation_bounded (df : Table) (c : String)
    (h : c ≠ "Time_is_int") :
    ((calculate_data_quality_metrics df).2.rows.map fun r => rget r c) =
      (df.rows.map fun r => rget r c) ∧
    (calculate_data_quality_metrics df).2.rows.length = df.rows.length := by
  rw [quality_metrics_snd]
  split
  · constructor
    · simp only [Table.setCol, List.map_map]
      exact List.map_congr_left fun r _ => rget_rset_ne _ _ h
    · simp [Table.setCol]
  · exact ⟨rfl, rfl⟩

/-- Witness for C6's amended theorem at the concrete one-row table. -/
theorem C6_quality_metrics_mutation_bounded_witness :
    ("Time" : String) ≠ "Time_is_int" ∧
    (((calculate_data_quality_metrics timeOnlyTable).2.rows.map fun r => rget r "Time") =
      (timeOnlyTable.rows.map fun r => rget r "Time") ∧
    (calculate_data_quality_metrics timeOnlyTable).2.rows.length =
      timeOnlyTable.rows.length) :=
  ⟨by decide, C6_quality_metrics_mutation_bounded timeOnlyTable "Time" (by decide)⟩

/-- C3 counterexample: on a filesystem where the requested path is absent,
`load_data` does not fail with any error value — it displays an error message
and itself returns the empty table. -/
theorem C3_counterexample :
    load_data missingFileSystem "data/ESGData.csv" =
      .ok (emptyTable,
        some ("Error: Data file not found: data/ESGData.csv"
          ++ ". Please ensure your CSVs are in the data directory.")) := by
  rfl

/-- C3 amended: on an absent source file, `load_data` catches the
file-not-found condition, displays an error message naming the path, and
returns an empty table (rather than failing with an error the caller handles);
the module-level core-data check then halts the session because the empty
table fails it. -/
theorem C3_missing_file_yields_empty_table (fs : FileSystem) (path : String)
    (h : fs path = none) :
    load_data fs path =
      .ok (emptyTable,
        some ("Error: Data file not found: " ++ path
          ++ ". Please ensure your CSVs are in the data directory.")) ∧
    ∀ c s : Table, coreCheck emptyTable c s = false := by
  constructor
  · simp [load_data, read_csv, h]
  · intro c s
    rfl

/-- Witness for C3's amended theorem on the all-absent filesystem. -/
theorem C3_missing_file_yields_empty_table_witness :
    missingFileSystem "data/ESGCountry.csv" = none ∧
    (load_data missingFileSystem "data/ESGCountry.csv" =
      .ok (emptyTable,
        some ("Error: Data file not found: " ++ "data/ESGCountry.csv"
          ++ ". Please ensure your CSVs are in the data directory.")) ∧
    ∀ c s : Table, coreCheck emptyTable c s = false) :=
  ⟨rfl, C3_missing_file_yields_empty_table missingFileSystem "data/ESGCountry.csv" rfl⟩

/-- C4 counterexample: a source file that exists with a header but zero data
rows loads successfully as a zero-row table — no error of any kind is raised,
and the zero-row table is handed downstream. -/
theorem C4_counterexample :
    load_data headerOnlyFileSystem "data/ESGData.csv" =
      .ok ({ cols := ["Country Code", "Series Code", "Time", "Value"], rows := [] }, none) := by
  rfl

/-- C4 amended: a source file with zero data rows is returned by `load_data`
as a zero-row table without any error; it is the module-level core-data check,
downstream of the loader, that detects the empty table and halts the session
before further processing. -/
theorem C4_empty_source_passed_downstream (fs : FileSystem) (path : String)
    (header : List String) (h : fs path = some (.table header [])) :
    load_data fs path = .ok ({ cols := header, rows := [] }, none) ∧
    ∀ c s : Table, coreCheck { cols := header, rows := [] } c s = false := by
  constructor
  · simp [load_data, read_csv, h]
  · intro c s
    rfl

/-- Witness for C4's amended theorem on the header-only filesystem. -/
theorem C4_empty_source_passed_downstream_witness :
    headerOnlyFileSystem "data/ESGData.csv" =
      some (.table ["Country Code", "Series Code", "Time", "Value"] []) ∧
    (load_data headerOnlyFileSystem "data/ESGData.csv" =
      .ok ({ cols := ["Country Code", "Series Code", "Time", "Value"], rows := [] }, none) ∧
    ∀ c s : Table,
      coreCheck { cols := ["Country Code", "Series Code", "Time", "Value"], rows := [] } c s
        = false) :=
  ⟨rfl, C4_empty_source_passed_downstream headerOnlyFileSystem "data/ESGData.csv"
    ["Country Code", "Series Code", "Time", "Value"] rfl⟩

theorem flatMap_length_of_length_one {α β : Type} (l : List α) (f : α → List β)
    (h : ∀ a ∈ l, (f a).length = 1) : (l.flatMap f).length = l.length := by
  induction l with
  | nil => rfl
  | cons a l ih =>
    have ha := h a (List.mem_cons_self a l)
    have hl := ih fun b hb => h b (List.mem_cons_of_mem a hb)
    simp only [List.flatMap_cons, List.length_append, List.length_cons, ha, hl]
    omega

/-- C5: left-outer join cardinality — when the secondary table has at most one
matching row per key value, the merge produces exactly one output row per
primary row, and a primary row with no match appears in the output padded with
`null` for the secondary's non-key columns. -/
theorem C5_left_join_cardinality (left right : Table) (key : String)
    (h : ∀ lr ∈ left.rows,
      (right.rows.filter fun rr => decide (rget rr key = rget lr key)).length ≤ 1) :
    (mergeLeft left right key).rows.length = left.rows.length ∧
    (∀ lr ∈ left.rows, ∃ ext, (lr ++ ext) ∈ (mergeLeft left right key).rows) ∧
    ∀ lr ∈ left.rows,
      (right.rows.filter fun rr => decide (rget rr key = rget lr key)) = [] →
      (lr ++ (right.cols.filter fun c => !decide (c = key)).map fun c =>
        (mergeRename left.cols c, Val.null)) ∈ (mergeLeft left right key).rows := by
  refine ⟨?_, ?_, ?_⟩
  · simp only [mergeLeft]
    apply flatMap_length_of_length_one
    intro lr hlr
    have hl := h lr hlr
    rcases hf : right.rows.filter fun rr => decide (rget rr key = rget lr key) with _ | ⟨m, ms⟩
    · simp
    · rw [hf] at hl
      simp only [List.length_cons] at hl
      simp only [List.length_map, List.length_cons]
      omega
  · intro lr hlr
    simp only [mergeLeft, List.mem_flatMap]
    rcases hf : right.rows.filter fun rr => decide (rget rr key = rget lr key) with _ | ⟨m, ms⟩
    · exact ⟨(right.cols.filter fun c => !decide (c = key)).map fun c =>
        (mergeRename left.cols c, Val.null), lr, hlr, by rw [hf]; simp⟩
    · refine ⟨(right.cols.filter fun c => !decide (c = key)).map fun c =>
        (mergeRename left.cols c, rget m c), lr, hlr, ?_⟩
      rw [hf]
      exact List.mem_map.mpr ⟨m, List.mem_cons_self m ms, rfl⟩
  · intro lr hlr hempty
    simp only [mergeLeft, List.mem_flatMap]
    refine ⟨lr, hlr, ?_⟩
    rw [hempty]
    simp

/-- Witness for C5 on a two-row primary whose second key is unmatched in the
one-row secondary. -/
theorem C5_left_join_cardinality_witness :
    (∀ lr ∈ joinPrimarySample.rows,
      (joinSecondarySample.rows.filter fun rr =>
        decide (rget rr "Country Code" = rget lr "Country Code")).length ≤ 1) ∧
    ((mergeLeft joinPrimarySample joinSecondarySample "Country Code").rows.length =
      joinPrimarySample.rows.length ∧
    (∀ lr ∈ joinPrimarySample.rows, ∃ ext,
      (lr ++ ext) ∈ (mergeLeft joinPrimarySample joinSecondarySample "Country Code").rows) ∧
    ∀ lr ∈ joinPrimarySample.rows,
      (joinSecondarySample.rows.filter fun rr =>
        decide (rget rr "Country Code" = rget lr "Country Code")) = [] →
      (lr ++ (joinSecondarySample.cols.filter fun c => !decide (c = "Country Code")).map fun c =>
        (mergeRename joinPrimarySample.cols c, Val.null)) ∈
        (mergeLeft joinPrimarySample joinSecondarySample "Country Code").rows) :=
  ⟨by decide,
    C5_left_join_cardinality joinPrimarySample joinSecondarySample "Country Code" (by decide)⟩

/-- C1 counterexample: reconciling a main table whose column is named
`"series code"` against the required key `"Series Code"` does not succeed —
the preprocessing merge is guarded by an exact membership test, so the result
contains no `"Series Code"` column and the row keeps the placeholder
indicator name instead of the secondary's `"CO2 emissions"`. -/
theorem C1_counterexample :
    (preprocess esgDataLowercase esgCountrySample esgSeriesSample).hasCol "Series Code"
      = false ∧
    ((preprocess esgDataLowercase esgCountrySample esgSeriesSample).rows.map fun r =>
      rget r "Indicator Name") = [Val.str "Unknown Indicator"] := by
  constructor
  · decide
  · decide

/-- C1 amended: the preprocessing performs only an exact, case- and
space-sensitive column-name test before the series merge; whenever the main
table lacks a column named exactly `"Series Code"` (even if a
normalized-equivalent such as `"series code"` is present), the merge is
skipped, the output has no `"Series Code"` column, and every output row keeps
the `"Unknown Indicator"` placeholder. -/
theorem C1_exact_match_required (d ec es : Table) (h : d.hasCol "Series Code" = false) :
    (preprocess d ec es).hasCol "Series Code" = false ∧
    ∀ r ∈ (preprocess d ec es).rows,
      rget r "Indicator Name" = Val.str "Unknown Indicator" := by
  have h0 : "Series Code" ∉ d.cols := hasCol_false_iff.mp h
  have h1 : "Series Code" ∉ (initPlaceholders d).cols := by
    intro hmem
    rcases mem_cols_setCol.mp hmem with hm | hm
    · rcases mem_cols_setCol.mp hm with hm2 | hm2
      · exact h0 hm2
      · exact absurd hm2 (by decide)
    · exact absurd hm (by decide)
  have h2 : "Series Code" ∉ (countryMergeStage (initPlaceholders d) ec).cols :=
    not_mem_cols_countryMergeStage h1 (by decide) (by decide) (by decide)
  have hskip : seriesMergeStage (countryMergeStage (initPlaceholders d) ec) es =
      countryMergeStage (initPlaceholders d) ec :=
    seriesMergeStage_skip (hasCol_false_iff.mpr h2)
  constructor
  · apply hasCol_false_iff.mpr
    unfold preprocess
    rw [hskip, timeStage_cols]
    exact h2
  · unfold preprocess
    rw [hskip]
    exact timeStage_preserves (by decide)
      (countryMergeStage_preserves (by decide) (by decide) (by decide)
        (initPlaceholders_indicator d))

/-- Witness for C1's amended theorem on the lowercase-key sample tables. -/
theorem C1_exact_match_required_witness :
    esgDataLowercase.hasCol "Series Code" = false ∧
    ((preprocess esgDataLowercase esgCountrySample esgSeriesSample).hasCol "Series Code"
        = false ∧
    ∀ r ∈ (preprocess esgDataLowercase esgCountrySample esgSeriesSample).rows,
      rget r "Indicator Name" = Val.str "Unknown Indicator") :=
  ⟨by decide,
    C1_exact_match_required esgDataLowercase esgCountrySample esgSeriesSample (by decide)⟩

/-- C10: for every set of input tables passing the core-data check, the
preprocessed main table contains both the `Country Name` and the
`Indicator Name` column — the placeholder initialization creates them, every
merge path keeps them, and no later stage drops them. -/
theorem C10_name_columns_always_present (d ec es : Table) (h : coreCheck d ec es = true) :
    (preprocess d ec es).hasCol "Country Name" = true ∧
    (preprocess d ec es).hasCol "Indicator Name" = true := by
  have hCN : "Country Name" ∈ (initPlaceholders d).cols :=
    mem_cols_setCol.mpr (Or.inl (mem_cols_setCol.mpr (Or.inr rfl)))
  have hIN : "Indicator Name" ∈ (initPlaceholders d).cols :=
    mem_cols_setCol.mpr (Or.inr rfl)
  constructor
  · apply hasCol_true_iff.mpr
    unfold preprocess
    rw [timeStage_cols]
    exact mem_cols_seriesMergeStage
      (mem_cols_countryMergeStage hCN (by decide)) (by decide)
  · apply hasCol_true_iff.mpr
    unfold preprocess
    rw [timeStage_cols]
    exact mem_cols_seriesMergeStage
      (mem_cols_countryMergeStage hIN (by decide)) (by decide)

/-- Witness for C10 on nonempty sample tables that pass the core-data check. -/
theorem C10_name_columns_always_present_witness :
    coreCheck esgDataLowercase esgCountrySample esgSeriesSample = true ∧
    ((preprocess esgDataLowercase esgCountrySample esgSeriesSample).hasCol "Country Name"
        = true ∧
    (preprocess esgDataLowercase esgCountrySample esgSeriesSample).hasCol "Indicator Name"
        = true) :=
  ⟨rfl,
    C10_name_columns_always_present esgDataLowercase esgCountrySample esgSeriesSample rfl⟩

end DAGO
